import Mathlib

/-!
Verification of the order-extraction and entity-resolution pipeline of the
text-orders backend.

The Python sources under backend/ are shallowly embedded below:

* backend/utils/spanish_business_synonyms.py : the constant tables.
* backend/utils/text_normalizer.py : remove_accents, normalize_business_name,
  extract_buying_group_keywords, calculate_boosted_similarity,
  is_personal_name, normalize_personal_name,
  calculate_weighted_token_similarity, calculate_jaro_winkler_similarity.
* backend/utils/database.py : the per-pair scoring of fuzzy_match_customer
  and the best-match selection loop.
* backend/subagents/sku_extraction.py : fuzzy_match_family, fuzzy_match_color,
  construct_sku.
* backend/subagents/valve_detection.py : detect_valve_request.
* backend/subagents/customer_id.py : extract_customer_id control flow.
* backend/tasks/task_extract_data.py : the phase-4 cardinality alignment and
  merge of process_single_email, and its phase-1/phase-2 failure stubs.

Python strings are modelled as Lean String (a list of characters, compared by
code point, matching Python semantics for the character repertoire used by
this code base).  Python float scores are modelled as exact rationals; every
comparison proved below is far from a rounding boundary.  Library calls that
the repository makes (difflib.SequenceMatcher, rapidfuzz token_set_ratio,
rapidfuzz JaroWinkler) are embedded from the published algorithms of those
libraries.  Database reads and LLM responses are passed in as explicit
values, since they are external inputs.
-/

/-! ## Character and string primitives -/

/-- Whitespace test matching Python str.split / str.strip / regex whitespace
for the characters that occur in this code base. -/
def isPySpace (c : Char) : Bool :=
  c == ' ' || c == '\t' || c == '\n' || c == '\r' || c.toNat == 11 || c.toNat == 12

/-- Word character test matching Python regex word boundary semantics on
accent-free lowered text: letters, digits and underscore. -/
def isWordChar (c : Char) : Bool :=
  (97 ≤ c.toNat && c.toNat ≤ 122) || (65 ≤ c.toNat && c.toNat ≤ 90) ||
    (48 ≤ c.toNat && c.toNat ≤ 57) || c.toNat == 95

/-- Lower-casing of one character: ASCII plus the accented Spanish capitals;
models Python str.lower on the repertoire used by the repository. -/
def lowerChar (c : Char) : Char :=
  if 65 ≤ c.toNat && c.toNat ≤ 90 then Char.ofNat (c.toNat + 32)
  else if c == 'Á' then 'á' else if c == 'É' then 'é' else if c == 'Í' then 'í'
  else if c == 'Ó' then 'ó' else if c == 'Ú' then 'ú' else if c == 'Ñ' then 'ñ'
  else if c == 'Ü' then 'ü' else if c == 'Ç' then 'ç'
  else c

/-- Diacritic stripping of one character: models NFD decomposition followed by
removal of combining marks (text_normalizer.remove_accents) for the Spanish
repertoire of the repository. -/
def deaccentChar (c : Char) : Char :=
  if c == 'á' || c == 'à' || c == 'ä' || c == 'â' then 'a'
  else if c == 'é' || c == 'è' || c == 'ë' || c == 'ê' then 'e'
  else if c == 'í' || c == 'ì' || c == 'ï' || c == 'î' then 'i'
  else if c == 'ó' || c == 'ò' || c == 'ö' || c == 'ô' then 'o'
  else if c == 'ú' || c == 'ù' || c == 'ü' || c == 'û' then 'u'
  else if c == 'ñ' then 'n' else if c == 'ç' then 'c'
  else if c == 'Á' || c == 'À' || c == 'Ä' || c == 'Â' then 'A'
  else if c == 'É' || c == 'È' || c == 'Ë' || c == 'Ê' then 'E'
  else if c == 'Í' || c == 'Ì' || c == 'Ï' || c == 'Î' then 'I'
  else if c == 'Ó' || c == 'Ò' || c == 'Ö' || c == 'Ô' then 'O'
  else if c == 'Ú' || c == 'Ù' || c == 'Ü' || c == 'Û' then 'U'
  else if c == 'Ñ' then 'N' else if c == 'Ç' then 'C'
  else c

/-- Python str.lower. -/
def pyLower (s : String) : String := ⟨s.data.map lowerChar⟩

/-- text_normalizer.remove_accents. -/
def remove_accents (s : String) : String := ⟨s.data.map deaccentChar⟩

/-- Python str.strip. -/
def pyStrip (s : String) : String :=
  ⟨(((s.data.dropWhile isPySpace).reverse).dropWhile isPySpace).reverse⟩

/-- Python s[:n] on a string (slice of the first n characters). -/
def pyTake (s : String) (n : Nat) : String := ⟨s.data.take n⟩

/-- Worker for Python str.split with no separator: cur is the reversed
current token, the second argument is the remaining input. -/
def splitWsAux : List Char → List Char → List (List Char)
  | cur, [] => if cur.isEmpty then [] else [cur.reverse]
  | cur, c :: cs =>
    if isPySpace c then
      if cur.isEmpty then splitWsAux [] cs else cur.reverse :: splitWsAux [] cs
    else splitWsAux (c :: cur) cs

/-- Python str.split with no separator: split on whitespace runs, dropping
empty pieces. -/
def pySplit (s : String) : List String := (splitWsAux [] s.data).map (fun l => ⟨l⟩)

/-- Worker for " ".join at the character level. -/
def joinChars : List (List Char) → List Char
  | [] => []
  | [t] => t
  | t :: ts => t ++ ' ' :: joinChars ts

/-- Python " ".join(tokens). -/
def joinSpace (ts : List String) : String := ⟨joinChars (ts.map String.data)⟩

/-- Substring test, modelling the Python membership test of a substring in a string. -/
def containsSub (needle hay : List Char) : Bool :=
  match hay with
  | [] => needle.isEmpty
  | _ :: rest => needle.isPrefixOf hay || containsSub needle rest

/-- Python lexicographic order on character lists (code-point comparison). -/
def lexLe : List Char → List Char → Bool
  | [], _ => true
  | _ :: _, [] => false
  | x :: xs, y :: ys =>
    if x.toNat < y.toNat then true
    else if y.toNat < x.toNat then false
    else lexLe xs ys

/-- Python string comparison a <= b. -/
def strLe (a b : String) : Bool := lexLe a.data b.data

/-- Python min(a, b) on strings. -/
def pyMin (a b : String) : String := if strLe a b then a else b

/-- The ordering relation used to model Python list.sort on strings. -/
def strLeProp (a b : String) : Prop := strLe a b = true

instance : DecidableRel strLeProp := fun a b => inferInstanceAs (Decidable (strLe a b = true))

theorem lexLe_total : ∀ a b, lexLe a b = true ∨ lexLe b a = true
  | [], _ => Or.inl rfl
  | _ :: _, [] => Or.inr rfl
  | x :: xs, y :: ys => by
    rcases Nat.lt_trichotomy x.toNat y.toNat with h | h | h
    · left; simp [lexLe, h]
    · rcases lexLe_total xs ys with h2 | h2 <;> [left; right] <;>
        simp [lexLe, h, h2]
    · right; simp [lexLe, h, Nat.lt_asymm h]

theorem lexLe_trans : ∀ a b c, lexLe a b = true → lexLe b c = true → lexLe a c = true
  | [], _, _, _, _ => rfl
  | _ :: _, [], _, h, _ => by simp [lexLe] at h
  | _ :: _, _ :: _, [], _, h => by simp [lexLe] at h
  | x :: xs, y :: ys, z :: zs, h1, h2 => by
    simp only [lexLe] at h1 h2 ⊢
    split_ifs at h1 h2 ⊢ <;> try (first | rfl | omega | assumption)
    · exact lexLe_trans xs ys zs h1 h2

instance : IsTotal String strLeProp := ⟨fun a b => lexLe_total a.data b.data⟩

instance : IsTrans String strLeProp := ⟨fun a b c => lexLe_trans a.data b.data c.data⟩

/-- Python list.sort on strings, modelled by insertion sort: on a total order
any comparison sort computes the same (the sorted permutation, and duplicate
strings are identical). -/
def pySortStrings (l : List String) : List String := List.insertionSort strLeProp l

/-- Worker for the seen-set duplicate removal loop of
normalize_personal_name (step 4 of the source). -/
def dedupAux (seen : List String) : List String → List String
  | [] => []
  | t :: ts => if t ∈ seen then dedupAux seen ts else t :: dedupAux (t :: seen) ts

/-- Order-preserving duplicate removal as in normalize_personal_name. -/
def pyDedup (l : List String) : List String := dedupAux [] l

/-! ## Constant tables from backend/utils/spanish_business_synonyms.py -/

/-- BUSINESS_TYPE_SYNONYMS, in source (insertion) order. -/
def BUSINESS_TYPE_SYNONYMS : List (String × String) :=
  [("almacenes", "materiales"), ("almacen", "materiales"), ("suministros", "materiales"),
   ("distribuciones", "distribuidor"), ("distribuidora", "distribuidor"),
   ("construcciones", "construccion"),
   ("comercial", "comercio")]

/-- BUYING_GROUP_KEYWORDS. -/
def BUYING_GROUP_KEYWORDS : List String :=
  ["gamma", "gremio", "grupo", "cadena", "asociacion"]

/-- SPANISH_GENDERED_NAMES, in source order (both directions present). -/
def SPANISH_GENDERED_NAMES : List (String × String) :=
  [("antonio", "antonia"), ("francisco", "francisca"), ("jose", "josefa"),
   ("juan", "juana"), ("carlos", "carla"), ("daniel", "daniela"),
   ("pablo", "paula"), ("angel", "angela"), ("manuel", "manuela"),
   ("andres", "andrea"), ("mario", "maria"), ("alejandro", "alejandra"),
   ("roberto", "roberta"), ("alberto", "alberta"), ("fernando", "fernanda"),
   ("luis", "luisa"), ("miguel", "miguela"), ("rafael", "rafaela"),
   ("sergio", "sergia"), ("diego", "diega"),
   ("antonia", "antonio"), ("francisca", "francisco"), ("josefa", "jose"),
   ("juana", "juan"), ("carla", "carlos"), ("daniela", "daniel"),
   ("paula", "pablo"), ("angela", "angel"), ("manuela", "manuel"),
   ("andrea", "andres"), ("maria", "mario"), ("alejandra", "alejandro"),
   ("roberta", "roberto"), ("alberta", "alberto"), ("fernanda", "fernando"),
   ("luisa", "luis"), ("miguela", "miguel"), ("rafaela", "rafael"),
   ("sergia", "sergio"), ("diega", "diego")]

/-- COMMON_SPANISH_GIVEN_NAMES. -/
def COMMON_SPANISH_GIVEN_NAMES : List String :=
  ["maria", "jose", "antonio", "francisco", "juan", "manuel", "david",
   "jesus", "javier", "daniel", "carlos", "miguel", "rafael", "pedro",
   "angel", "alejandro", "fernando", "pablo", "sergio", "jorge", "luis",
   "antonia", "ana", "carmen", "dolores", "isabel", "pilar", "josefa",
   "francisca", "rosa", "teresa", "mercedes", "cristina", "laura", "marta",
   "paula", "lucia", "andrea", "sara", "elena", "patricia", "raquel"]

/-- COMMON_SPANISH_SURNAMES. -/
def COMMON_SPANISH_SURNAMES : List String :=
  ["garcia", "rodriguez", "martinez", "lopez", "gonzalez", "hernandez",
   "perez", "sanchez", "ramirez", "torres", "flores", "rivera", "gomez",
   "diaz", "cruz", "morales", "reyes", "gutierrez", "ortiz", "chavez",
   "ruiz", "alvarez", "castillo", "jimenez", "moreno", "romero", "vargas",
   "fernandez", "suarez", "ramos", "vazquez", "mendez", "castro", "rojas",
   "barroso", "sevilla", "navarro", "medina", "aguilar", "cortes", "silva"]

/-- First-match association lookup, modelling Python dict access (keys of the
embedded dictionaries are distinct). -/
def lookupStr (k : String) : List (String × String) → Option String
  | [] => none
  | (a, b) :: rest => if a = k then some b else lookupStr k rest

/-! ## normalize_personal_name (backend/utils/text_normalizer.py) -/

/-- Gendered-variant step of normalize_personal_name: a token that is a key of
SPANISH_GENDERED_NAMES is replaced by min(token, variant). -/
def genderNorm (t : String) : String :=
  match lookupStr t SPANISH_GENDERED_NAMES with
  | some v => pyMin t v
  | none => t

/-- text_normalizer.normalize_personal_name: tokenize, unify gendered name
variants, sort tokens, remove duplicates, join with single spaces. -/
def normalize_personal_name (text : String) : String :=
  joinSpace (pyDedup (pySortStrings ((pySplit text).map genderNorm)))

/-! ### Idempotence infrastructure for normalize_personal_name -/

/-- A well-formed token: nonempty, and free of whitespace characters. -/
def tokOkB (t : String) : Bool := (!t.data.isEmpty) && t.data.all (fun c => !isPySpace c)

theorem lookupStr_mem {k v : String} :
    ∀ {l : List (String × String)}, lookupStr k l = some v → (k, v) ∈ l := by
  intro l
  induction l with
  | nil => intro h; simp [lookupStr] at h
  | cons p rest ih =>
    intro h
    rw [lookupStr] at h
    split_ifs at h with hk
    · have h2 : p.2 = v := Option.some.inj h
      have hp : p = (k, v) := by
        cases p
        simp only at hk h2
        rw [hk, h2]
      rw [← hp]
      exact List.mem_cons_self _ _
    · exact List.mem_cons_of_mem _ (ih h)

/-- The gendered-names dictionary is an involution: the value of every entry
is itself a key whose value is the original key. -/
theorem genderTable_involutive :
    ∀ p ∈ SPANISH_GENDERED_NAMES, lookupStr p.2 SPANISH_GENDERED_NAMES = some p.1 := by
  decide

/-- Every value of the gendered-names dictionary is a well-formed token. -/
theorem genderTable_values_tokOk : ∀ p ∈ SPANISH_GENDERED_NAMES, tokOkB p.2 = true := by
  decide

theorem genderNorm_idem (t : String) : genderNorm (genderNorm t) = genderNorm t := by
  cases h : lookupStr t SPANISH_GENDERED_NAMES with
  | none =>
    have h1 : genderNorm t = t := by rw [genderNorm, h]
    rw [h1, h1]
  | some v =>
    have h1 : genderNorm t = pyMin t v := by rw [genderNorm, h]
    by_cases hle : strLe t v = true
    · have h2 : pyMin t v = t := by rw [pyMin, if_pos hle]
      rw [h1, h2, h1, h2]
    · have hvt : strLe v t = true :=
        (lexLe_total v.data t.data).resolve_right (by simpa [strLe] using hle)
      have h2 : pyMin t v = v := by rw [pyMin, if_neg hle]
      have hv : lookupStr v SPANISH_GENDERED_NAMES = some t :=
        genderTable_involutive (t, v) (lookupStr_mem h)
      have h3 : genderNorm v = pyMin v t := by rw [genderNorm, hv]
      rw [h1, h2, h3, pyMin, if_pos hvt]

theorem splitWsAux_tokOk :
    ∀ (l cur : List Char), (∀ c ∈ cur, isPySpace c = false) →
      ∀ t ∈ splitWsAux cur l, t ≠ [] ∧ ∀ c ∈ t, isPySpace c = false := by
  intro l
  induction l with
  | nil =>
    intro cur hcur t ht
    rw [splitWsAux] at ht
    split_ifs at ht with he
    · simp at ht
    · simp only [List.mem_singleton] at ht
      subst ht
      refine ⟨fun hc => he ?_, fun c hc => hcur c (List.mem_reverse.mp hc)⟩
      simpa [List.isEmpty_iff] using congrArg List.reverse hc
  | cons c cs ih =>
    intro cur hcur t ht
    rw [splitWsAux] at ht
    split_ifs at ht with hsp he
    · exact ih [] (by simp) t ht
    · rcases List.mem_cons.mp ht with h | h
      · subst h
        refine ⟨fun hc => ?_, fun d hd => hcur d (List.mem_reverse.mp hd)⟩
        rw [List.isEmpty_iff] at he
        exact he (by simpa using congrArg List.reverse hc)
      · exact ih [] (by simp) t h
    · refine ih (c :: cur) ?_ t ht
      intro d hd
      rcases List.mem_cons.mp hd with h | h
      · subst h; simpa using hsp
      · exact hcur d h

theorem splitWsAux_feed (tok : List Char) (htok : ∀ c ∈ tok, isPySpace c = false) :
    ∀ (acc rest : List Char),
      splitWsAux acc (tok ++ rest) = splitWsAux (tok.reverse ++ acc) rest := by
  induction tok with
  | nil => intro acc rest; simp
  | cons c cs ih =>
    intro acc rest
    have hc : isPySpace c = false := htok c (List.mem_cons_self c cs)
    rw [List.cons_append, splitWsAux, if_neg (by simp [hc]),
      ih (fun d hd => htok d (List.mem_cons_of_mem c hd)) (c :: acc)]
    simp

theorem splitWsAux_join :
    ∀ ts : List (List Char), (∀ t ∈ ts, t ≠ [] ∧ ∀ c ∈ t, isPySpace c = false) →
      splitWsAux [] (joinChars ts) = ts := by
  intro ts
  induction ts with
  | nil => intro _; rfl
  | cons t rest ih =>
    intro h
    obtain ⟨hne, hfree⟩ := h t (List.mem_cons_self t rest)
    cases rest with
    | nil =>
      rw [show joinChars [t] = t ++ ([] : List Char) by simp [joinChars],
        splitWsAux_feed t hfree [] [], splitWsAux,
        if_neg (by simpa [List.isEmpty_iff] using hne)]
      simp
    | cons r rs =>
      rw [show joinChars (t :: r :: rs) = t ++ ' ' :: joinChars (r :: rs) from rfl,
        splitWsAux_feed t hfree [] (' ' :: joinChars (r :: rs)),
        splitWsAux, if_pos (by decide), if_neg (by simpa [List.isEmpty_iff] using hne)]
      rw [ih (fun u hu => h u (List.mem_cons_of_mem t hu))]
      simp

theorem pySplit_joinSpace (ts : List String) (h : ∀ t ∈ ts, tokOkB t = true) :
    pySplit (joinSpace ts) = ts := by
  rw [pySplit, joinSpace]
  show (splitWsAux [] (joinChars (ts.map String.data))).map (fun l => (⟨l⟩ : String)) = ts
  rw [splitWsAux_join (ts.map String.data) ?_]
  · rw [List.map_map]
    have : (fun l => (⟨l⟩ : String)) ∘ String.data = id := by
      funext s; cases s; rfl
    rw [this, List.map_id]
  · intro l hl
    rcases List.mem_map.mp hl with ⟨s, hs, rfl⟩
    have := h s hs
    rw [tokOkB, Bool.and_eq_true, List.all_eq_true] at this
    exact ⟨by simpa [List.isEmpty_iff] using this.1,
      fun c hc => by simpa using this.2 c hc⟩

theorem dedupAux_sublist (seen : List String) :
    ∀ l : List String, (dedupAux seen l).Sublist l := by
  intro l
  induction l generalizing seen with
  | nil => exact List.Sublist.refl []
  | cons t ts ih =>
    rw [dedupAux]
    split_ifs
    · exact (ih seen).cons t
    · exact (ih (t :: seen)).cons₂ t

theorem dedupAux_not_seen (seen : List String) :
    ∀ (l : List String) (x : String), x ∈ dedupAux seen l → x ∉ seen := by
  intro l
  induction l generalizing seen with
  | nil => intro x hx; simp [dedupAux] at hx
  | cons t ts ih =>
    intro x hx
    rw [dedupAux] at hx
    split_ifs at hx with ht
    · exact ih seen x hx
    · rcases List.mem_cons.mp hx with h | h
      · subst h; intro hc; exact ht hc
      · intro hc
        exact ih (t :: seen) x h (List.mem_cons_of_mem t hc)

theorem dedupAux_nodup (seen : List String) : ∀ l : List String, (dedupAux seen l).Nodup := by
  intro l
  induction l generalizing seen with
  | nil => exact List.nodup_nil
  | cons t ts ih =>
    rw [dedupAux]
    split_ifs
    · exact ih seen
    · exact List.Nodup.cons
        (fun hmem => dedupAux_not_seen (t :: seen) ts t hmem (List.mem_cons_self t seen))
        (ih (t :: seen))

theorem dedupAux_eq_self (seen : List String) :
    ∀ l : List String, l.Nodup → (∀ x ∈ l, x ∉ seen) → dedupAux seen l = l := by
  intro l
  induction l generalizing seen with
  | nil => intro _ _; rfl
  | cons t ts ih =>
    intro hnd hout
    rw [dedupAux, if_neg (hout t (List.mem_cons_self t ts))]
    rw [ih (t :: seen) (List.Nodup.of_cons hnd) ?_]
    intro x hx
    intro hc
    rcases List.mem_cons.mp hc with h | h
    · subst h
      exact (List.nodup_cons.mp hnd).1 hx
    · exact hout x (List.mem_cons_of_mem t hx) h

/-- A token list that is sorted, duplicate-free, made of well-formed tokens
each fixed by the gendered-variant step, is a fixed point of the whole
normalize_personal_name pipeline once joined. -/
theorem normalize_personal_name_of_normalized (u : List String)
    (husort : List.Sorted strLeProp u) (hunodup : u.Nodup)
    (hufix : ∀ t ∈ u, genderNorm t = t) (hutok : ∀ t ∈ u, tokOkB t = true) :
    normalize_personal_name (joinSpace u) = joinSpace u := by
  rw [normalize_personal_name, pySplit_joinSpace u hutok]
  have hmap : u.map genderNorm = u := by
    calc u.map genderNorm = u.map id := List.map_congr_left hufix
    _ = u := List.map_id u
  rw [hmap, pySortStrings, List.Sorted.insertionSort_eq husort, pyDedup,
    dedupAux_eq_self [] u hunodup (by simp)]

/-- Claim C10: normalize_personal_name is idempotent: a second application
returns its input unchanged, because the output is a space-joined,
sorted, duplicate-free token list whose gendered-name tokens are already the
smaller member of their variant pair. -/
theorem normalize_personal_name_idem (x : String) :
    normalize_personal_name (normalize_personal_name x) = normalize_personal_name x := by
  have hx : normalize_personal_name x =
      joinSpace (pyDedup (pySortStrings ((pySplit x).map genderNorm))) := by
    rw [normalize_personal_name]
  rw [hx]
  set u := pyDedup (pySortStrings ((pySplit x).map genderNorm)) with hu
  have humem : ∀ t ∈ u, ∃ s, t = genderNorm s ∧ s ∈ pySplit x := by
    intro t ht
    rw [hu, pyDedup] at ht
    have h1 : t ∈ pySortStrings ((pySplit x).map genderNorm) :=
      (dedupAux_sublist [] _).mem ht
    have h2 : t ∈ (pySplit x).map genderNorm := by
      rw [pySortStrings] at h1
      exact (List.mem_insertionSort strLeProp).mp h1
    rcases List.mem_map.mp h2 with ⟨s, hs, rfl⟩
    exact ⟨s, rfl, hs⟩
  refine normalize_personal_name_of_normalized u ?_ ?_ ?_ ?_
  · rw [hu, pyDedup]
    exact List.Pairwise.sublist (dedupAux_sublist [] _)
      (List.sorted_insertionSort strLeProp _)
  · rw [hu, pyDedup]; exact dedupAux_nodup [] _
  · intro t ht
    rcases humem t ht with ⟨s, rfl, _⟩
    exact genderNorm_idem s
  · intro t ht
    rcases humem t ht with ⟨s, rfl, hs⟩
    have hsok : tokOkB s = true := by
      rw [pySplit] at hs
      rcases List.mem_map.mp hs with ⟨l, hl, rfl⟩
      obtain ⟨hne, hfree⟩ := splitWsAux_tokOk x.data [] (by simp) l hl
      rw [tokOkB, Bool.and_eq_true, List.all_eq_true]
      exact ⟨by simpa [List.isEmpty_iff] using hne, fun c hc => by simpa using hfree c hc⟩
    cases hlk : lookupStr s SPANISH_GENDERED_NAMES with
    | none =>
      have h1 : genderNorm s = s := by rw [genderNorm, hlk]
      rw [h1]; exact hsok
    | some v =>
      have h1 : genderNorm s = pyMin s v := by rw [genderNorm, hlk]
      rw [h1]
      simp only [pyMin]
      split_ifs
      · exact hsok
      · exact genderTable_values_tokOk (s, v) (lookupStr_mem hlk)

/-! ## Word-boundary regex machinery

The repository uses a small fixed set of regular expressions; each is embedded
by a dedicated matcher that follows Python re semantics for those patterns
(word boundaries, literal dots, an optional trailing dot with backtracking,
IGNORECASE, and left-to-right non-overlapping substitution scanned over the
original text). -/

/-- Case-insensitive literal prefix match (pattern characters are stored
lower-case). -/
def matchCI : List Char → List Char → Bool
  | [], _ => true
  | _ :: _, [] => false
  | p :: ps, c :: cs => (lowerChar c == p) && matchCI ps cs

/-- Word boundary before a pattern that starts with a word character: holds at
text start or after a non-word character. -/
def boundaryBefore (prev : Option Char) : Bool :=
  match prev with
  | none => true
  | some c => !isWordChar c

/-- Word boundary after a pattern that ends with a word character: holds at
text end or before a non-word character. -/
def boundaryAfterWord (rest : List Char) : Bool :=
  match rest with
  | [] => true
  | c :: _ => !isWordChar c

/-- Search for one occurrence of a literal pattern framed by word boundaries
(the pattern starts and ends with word characters; inner dots are literal). -/
def hasPatAux (pat : List Char) : Option Char → List Char → Bool
  | _, [] => false
  | prev, c :: cs =>
    (boundaryBefore prev && matchCI pat (c :: cs) &&
      boundaryAfterWord ((c :: cs).drop pat.length)) ||
    hasPatAux pat (some c) cs

/-- re.search of a word-boundary-framed literal pattern, IGNORECASE. -/
def hasPat (pat : List Char) (text : List Char) : Bool := hasPatAux pat none text

/-- Worker for re.sub of a word-boundary-framed literal word: matches are
located in the original text left to right, non-overlapping; the replacement
is spliced in and never rescanned.  Fuel is the remaining text length. -/
def subWordAux (key val : List Char) : Nat → Option Char → List Char → List Char
  | 0, _, text => text
  | _ + 1, _, [] => []
  | fuel + 1, prev, c :: cs =>
    if boundaryBefore prev && matchCI key (c :: cs) &&
        boundaryAfterWord ((c :: cs).drop key.length) then
      val ++ subWordAux key val fuel (((c :: cs).take key.length).getLast?)
        ((c :: cs).drop key.length)
    else c :: subWordAux key val fuel (some c) cs

/-- re.sub(r word-boundary key word-boundary, val, text, IGNORECASE). -/
def subWord (key val : String) (text : List Char) : List Char :=
  subWordAux key.data val.data text.length none text

/-- Step 2 of normalize_business_name: substitute every business-type synonym
in dictionary order. -/
def applySynonyms (text : List Char) : List Char :=
  BUSINESS_TYPE_SYNONYMS.foldl (fun t p => subWord p.1 p.2 t) text

/-- Shape of one legal-entity suffix pattern from
spanish_business_synonyms.LEGAL_ENTITY_PATTERNS: an optional leading
comma-plus-whitespace (with a word boundary before the comma), letters
separated by literal dots, one optional trailing dot, a closing word
boundary, and the replacement text. -/
structure LegalPat where
  commaPfx : Bool
  letters : List Char
  repl : List Char

/-- COMPILED_LEGAL_ENTITY_PATTERNS, in source order. -/
def LEGAL_ENTITY_PATTERNS : List LegalPat :=
  [⟨false, ['s', 'l', 'u'], ['S', 'L']⟩,
   ⟨false, ['s', 'l'], ['S', 'L']⟩,
   ⟨true, ['s', 'l'], [' ', 'S', 'L']⟩,
   ⟨false, ['s', 'a'], ['S', 'A']⟩,
   ⟨true, ['s', 'a'], [' ', 'S', 'A']⟩,
   ⟨false, ['s', 'c'], ['S', 'C']⟩,
   ⟨false, ['s', 'l', 'l'], ['S', 'L']⟩]

/-- Match the dotted letter core (letter, then dot-letter pairs), returning
consumed length and the rest. -/
def matchDottedCore : List Char → List Char → Option (Nat × List Char)
  | [], rest => some (0, rest)
  | _ :: _, [] => none
  | p :: ps, c :: cs =>
    if lowerChar c == p then
      match ps, cs with
      | [], _ => some (1, cs)
      | _ :: _, '.' :: cs2 =>
        match matchDottedCore ps cs2 with
        | some (n, rest) => some (n + 2, rest)
        | none => none
      | _ :: _, _ => none
    else none

/-- Match the dotted letters, the greedy optional trailing dot, and the
closing word boundary; returns the consumed length. -/
def matchDottedEnd (letters : List Char) (text : List Char) : Option Nat :=
  match matchDottedCore letters text with
  | none => none
  | some (n, rest) =>
    match rest with
    | '.' :: rest2 =>
      match rest2 with
      | c :: _ => if isWordChar c then some (n + 1) else some n
      | [] => some n
    | c :: _ => if isWordChar c then none else some n
    | [] => some n

/-- Match one legal-entity pattern at the current position. -/
def matchLegalAt (p : LegalPat) (prev : Option Char) (text : List Char) : Option Nat :=
  if p.commaPfx then
    match prev, text with
    | some pc, ',' :: rest =>
      if isWordChar pc then
        match matchDottedEnd p.letters (rest.drop (rest.takeWhile isPySpace).length) with
        | some n => some (n + 1 + (rest.takeWhile isPySpace).length)
        | none => none
      else none
    | _, _ => none
  else
    if boundaryBefore prev then matchDottedEnd p.letters text else none

/-- Worker for re.sub of one legal-entity pattern (fuel is the remaining text
length; every match consumes at least one character). -/
def legalSubAux (p : LegalPat) : Nat → Option Char → List Char → List Char
  | 0, _, text => text
  | _ + 1, _, [] => []
  | fuel + 1, prev, c :: cs =>
    match matchLegalAt p prev (c :: cs) with
    | some n => p.repl ++ legalSubAux p fuel (((c :: cs).take n).getLast?) ((c :: cs).drop n)
    | none => c :: legalSubAux p fuel (some c) cs

/-- Step 3 of normalize_business_name: apply every compiled legal-entity
pattern in order. -/
def applyLegalPatterns (text : List Char) : List Char :=
  LEGAL_ENTITY_PATTERNS.foldl (fun t p => legalSubAux p t.length none t) text

/-- Worker for re.sub of one-or-more whitespace by a single space; the flag
records whether the scanner is inside a whitespace run. -/
def collapseWsAux : Bool → List Char → List Char
  | _, [] => []
  | inRun, c :: cs =>
    if isPySpace c then
      if inRun then collapseWsAux true cs else ' ' :: collapseWsAux true cs
    else c :: collapseWsAux false cs

/-- text_normalizer.normalize_business_name: lower-case, strip, remove
accents, substitute business-type synonyms at word boundaries, normalize
legal-entity suffixes, turn commas into spaces, collapse whitespace, strip. -/
def normalize_business_name (text : String) : String :=
  let n1 := remove_accents (pyStrip (pyLower text))
  let n2 := applyLegalPatterns (applySynonyms n1.data)
  pyStrip ⟨collapseWsAux false (n2.map (fun c => if c == ',' then ' ' else c))⟩

/-- text_normalizer.extract_buying_group_keywords: keywords found in the
lowered text at word boundaries, in keyword-list order. -/
def extract_buying_group_keywords (text : String) : List String :=
  BUYING_GROUP_KEYWORDS.filter (fun k => hasPat k.data (pyLower text).data)

/-- text_normalizer.calculate_boosted_similarity: buying-group keyword boost
for business-name pairs (the two normalized names are carried but unused, as
in the source). -/
def calculate_boosted_similarity (_n1 _n2 : String) (k1 k2 : List String)
    (base : ℚ) : ℚ :=
  if k1 = [] ∨ k2 = [] then base
  else if k1.filter (fun k => k ∈ k2) = [] then base
  else if (k1.filter (fun k => k ∈ k2)).length = 1 then min (base + 10/100) 1
  else min (base + 15/100) 1

/-- The legal-entity suffix search patterns of is_personal_name (check 1), in
source order. -/
def IS_PERSONAL_LEGAL_PATTERNS : List String :=
  ["sl", "sa", "sc", "s.l", "s.a", "s.c", "s.l.u", "s.l.l", "slu", "sll"]

/-- The business keyword set of is_personal_name (check 3): synonym keys,
synonym values, and five extra keywords; tested by substring containment. -/
def CLASSIFY_BUSINESS_KEYWORDS : List String :=
  BUSINESS_TYPE_SYNONYMS.map Prod.fst ++ BUSINESS_TYPE_SYNONYMS.map Prod.snd ++
    ["construccion", "materiales", "distribuidor", "comercio", "suministros"]

/-- text_normalizer.is_personal_name: no legal-entity suffix, at most six
tokens, no business keyword substring. -/
def is_personal_name (text : String) : Bool :=
  if IS_PERSONAL_LEGAL_PATTERNS.any (fun p => hasPat p.data text.data) then false
  else if 6 < (pySplit text).length then false
  else if CLASSIFY_BUSINESS_KEYWORDS.any
      (fun k => containsSub k.data (pyLower text).data) then false
  else true

/-- Claim C7 (the code violates it): normalize_business_name is not
idempotent.  On "Materiales Perez, S.L." the first application yields
"materiales perez SL." because the legal-entity substitution splices the
upper-case replacement SL into the otherwise lower-cased string; the second
application lower-cases that to "materiales perez sl.", so applying the
function twice differs from applying it once. -/
theorem normalize_business_name_not_idem :
    normalize_business_name "Materiales Perez, S.L." = "materiales perez SL." ∧
    normalize_business_name (normalize_business_name "Materiales Perez, S.L.") =
      "materiales perez sl." ∧
    normalize_business_name (normalize_business_name "Materiales Perez, S.L.") ≠
      normalize_business_name "Materiales Perez, S.L." := by
  refine ⟨by decide, by decide, by decide⟩

/-! ## calculate_weighted_token_similarity (backend/utils/text_normalizer.py) -/

/-- Python set(s.split()) modelled as a duplicate-free list (iteration order
is irrelevant wherever the source uses such a set). -/
def setOfTokens (s : String) : List String := pyDedup (pySplit s)

/-- Tokens common to both names (set intersection). -/
def commonToks (t1 t2 : String) : List String :=
  (setOfTokens t1).filter (fun t => t ∈ setOfTokens t2)

/-- Number of common tokens that are known surnames. -/
def surnameMatches (t1 t2 : String) : Nat :=
  ((commonToks t1 t2).filter (fun t => t ∈ COMMON_SPANISH_SURNAMES)).length

/-- Number of common tokens that are common given names. -/
def givenMatches (t1 t2 : String) : Nat :=
  ((commonToks t1 t2).filter (fun t => t ∈ COMMON_SPANISH_GIVEN_NAMES)).length

/-- text_normalizer.calculate_weighted_token_similarity: surname boost
(+0.03 each, capped at +0.06), given-name-only penalty (-0.02 each, capped at
-0.04), neutral otherwise. -/
def calculate_weighted_token_similarity (t1 t2 : String) (base : ℚ) : ℚ :=
  if commonToks t1 t2 = [] then base
  else if 0 < surnameMatches t1 t2 then
    min (base + min ((surnameMatches t1 t2 : ℚ) * (3/100)) (6/100)) 1
  else if 0 < givenMatches t1 t2 then
    max (base - min ((givenMatches t1 t2 : ℚ) * (2/100)) (4/100)) 0
  else base

/-! ## Jaro-Winkler similarity

Embeds rapidfuzz JaroWinkler.normalized_similarity, called by
text_normalizer.calculate_jaro_winkler_similarity: Jaro similarity from
windowed greedy matching with transpositions, plus the Winkler common-prefix
boost (up to four characters) applied above 0.7. -/

/-- First unmatched index j in [lo, hi) of b that holds character c. -/
def jaroFind (b : List Char) (matched : List Bool) (c : Char) (lo hi : Nat) : Option Nat :=
  ((List.range b.length).filter
    (fun j => lo ≤ j ∧ j < hi ∧ b.getD j ' ' = c ∧ matched.getD j true = false)).head?

/-- Greedy matching pass of the Jaro algorithm: returns the matched
(b-index, a-character) pairs in a-order. -/
def jaroPairs (a b : List Char) (window : Nat) : List (Nat × Char) :=
  ((List.range a.length).foldl
    (fun (st : List Bool × List (Nat × Char)) i =>
      match jaroFind b st.1 (a.getD i ' ') (i - window) (min (i + window + 1) b.length) with
      | some j => (st.1.set j true, st.2 ++ [(j, a.getD i ' ')])
      | none => st)
    (List.replicate b.length false, [])).2

/-- Length of the common prefix of two strings, capped at four. -/
def commonPrefix4 : List Char → List Char → Nat → Nat
  | a :: as, c :: cs, cap + 1 => if a = c then 1 + commonPrefix4 as cs cap else 0
  | _, _, _ => 0

/-- rapidfuzz JaroWinkler.normalized_similarity with a prefix weight. -/
def jaroWinklerSim (s1 s2 : String) (pw : ℚ) : ℚ :=
  let a := s1.data
  let b := s2.data
  if a.length = 0 ∧ b.length = 0 then 1
  else if a.length = 0 ∨ b.length = 0 then 0
  else
    let window := max a.length b.length / 2 - 1
    let pairs := jaroPairs a b window
    let m := pairs.length
    if m = 0 then 0
    else
      let inA := pairs.map Prod.snd
      let inB := (List.insertionSort (fun x y : Nat => x ≤ y) (pairs.map Prod.fst)).map
        (fun j => b.getD j ' ')
      let mism := ((inA.zip inB).filter (fun p => p.1 ≠ p.2)).length
      let jaro := ((m : ℚ) / a.length + (m : ℚ) / b.length +
        ((m : ℚ) - (mism : ℚ) / 2) / m) / 3
      if 7/10 < jaro then jaro + (commonPrefix4 a b 4 : ℚ) * pw * (1 - jaro) else jaro

/-- text_normalizer.calculate_jaro_winkler_similarity (prefix weight 0.15 at
every call site). -/
def calculate_jaro_winkler_similarity (t1 t2 : String) : ℚ :=
  jaroWinklerSim t1 t2 (15/100)

/-! ## rapidfuzz token_set_ratio

Embeds the rapidfuzz fuzz.token_set_ratio algorithm used as the base scorer of
database.fuzzy_match_customer: split into sorted unique token sets; full score
when one token set contains the other with a nonempty intersection; otherwise
the maximum of an Indel ratio of the joined differences and two
intersection-versus-whole ratios. -/

/-- One row update of the longest-common-subsequence table. -/
def lcsRow (ca : Char) : List Char → List Nat → Nat → Nat → List Nat
  | [], _, _, _ => []
  | cb :: bs, prev, diag, left =>
    let up := prev.headD 0
    let cur := if cb = ca then diag + 1 else max left up
    cur :: lcsRow ca bs prev.tail up cur

/-- Length of a longest common subsequence. -/
def lcsLen (a b : List Char) : Nat :=
  (a.foldl (fun row ca => lcsRow ca b row 0 0) (List.replicate b.length 0)).getLastD 0

/-- rapidfuzz fuzz.ratio: normalized Indel similarity, scaled to 0..100. -/
def indelSim (x y : String) : ℚ :=
  if x.data.length + y.data.length = 0 then 100
  else 200 * (lcsLen x.data y.data : ℚ) / ((x.data.length : ℚ) + y.data.length)

/-- Sorted unique token list of a string (rapidfuzz splits on whitespace and
keeps a sorted set). -/
def sortedUniqToks (s : String) : List String := pyDedup (pySortStrings (pySplit s))

/-- rapidfuzz fuzz.token_set_ratio on 0..100. -/
def token_set_ratio (s1 s2 : String) : ℚ :=
  let ta := sortedUniqToks s1
  let tb := sortedUniqToks s2
  if ta = [] ∨ tb = [] then 0
  else
    let sect := ta.filter (fun t => t ∈ tb)
    let dab := ta.filter (fun t => t ∉ tb)
    let dba := tb.filter (fun t => t ∉ ta)
    if sect ≠ [] ∧ (dab = [] ∨ dba = []) then 100
    else
      let dabJ := joinSpace dab
      let dbaJ := joinSpace dba
      let sectLen := (joinSpace sect).data.length
      let sb : Nat := if sectLen ≠ 0 then 1 else 0
      let r1 := indelSim dabJ dbaJ
      let r2 := 100 - 100 * ((sb + dabJ.data.length : ℚ)) /
        ((sectLen : ℚ) + (sectLen + sb + dabJ.data.length : ℚ))
      let r3 := 100 - 100 * ((sb + dbaJ.data.length : ℚ)) /
        ((sectLen : ℚ) + (sectLen + sb + dbaJ.data.length : ℚ))
      max r1 (max r2 r3)

/-! ## difflib SequenceMatcher ratio

Embeds difflib.SequenceMatcher(None, a, b).ratio(), the scorer of
sku_extraction.fuzzy_match_family and fuzzy_match_color.  Junk handling is
inactive here: no isjunk predicate is passed and autojunk only engages for
second sequences of 200 or more characters, far beyond the family and color
descriptions this repository compares. -/

/-- Indices of character c in b, ascending (difflib b2j). -/
def b2j (b : List Char) (c : Char) : List Nat :=
  (List.range b.length).filter (fun j => b.getD j ' ' = c)

/-- Association lookup with default 0 (difflib j2len.get(j-1, 0)). -/
def lookupNatD (j : Nat) : List (Nat × Nat) → Nat
  | [] => 0
  | (k, v) :: rest => if k = j then v else lookupNatD j rest

/-- Inner loop of find_longest_match for one position i of a: fold over the
b-indices of a[i], building the new j2len table and updating the best block
(strict improvement keeps the earliest i, then the earliest j). -/
def flmStep (blo bhi i : Nat) (j2len : List (Nat × Nat)) (js : List Nat)
    (best : Nat × Nat × Nat) : List (Nat × Nat) × (Nat × Nat × Nat) :=
  js.foldl
    (fun (st : List (Nat × Nat) × (Nat × Nat × Nat)) j =>
      if blo ≤ j ∧ j < bhi then
        let k := (if j = 0 then 0 else lookupNatD (j - 1) j2len) + 1
        ((j, k) :: st.1, if st.2.2.2 < k then (i + 1 - k, j + 1 - k, k) else st.2)
      else st)
    ([], best)

/-- Backward extension loop of find_longest_match (junk-free form). -/
def extendBack (a b : List Char) (alo blo : Nat) : Nat → Nat × Nat × Nat → Nat × Nat × Nat
  | 0, st => st
  | fuel + 1, (bi, bj, bs) =>
    if alo < bi ∧ blo < bj ∧ a.getD (bi - 1) ' ' = b.getD (bj - 1) ' ' then
      extendBack a b alo blo fuel (bi - 1, bj - 1, bs + 1)
    else (bi, bj, bs)

/-- Forward extension loop of find_longest_match (junk-free form). -/
def extendFwd (a b : List Char) (ahi bhi : Nat) : Nat → Nat × Nat × Nat → Nat × Nat × Nat
  | 0, st => st
  | fuel + 1, (bi, bj, bs) =>
    if bi + bs < ahi ∧ bj + bs < bhi ∧ a.getD (bi + bs) ' ' = b.getD (bj + bs) ' ' then
      extendFwd a b ahi bhi fuel (bi, bj, bs + 1)
    else (bi, bj, bs)

/-- difflib SequenceMatcher.find_longest_match on a[alo:ahi] and b[blo:bhi]. -/
def findLongestMatch (a b : List Char) (alo ahi blo bhi : Nat) : Nat × Nat × Nat :=
  let core := (List.range' alo (ahi - alo)).foldl
    (fun (st : List (Nat × Nat) × (Nat × Nat × Nat)) i =>
      flmStep blo bhi i st.1 (b2j b (a.getD i ' ')) st.2)
    ([], (alo, blo, 0))
  let ext1 := extendBack a b alo blo core.2.1 core.2
  extendFwd a b ahi bhi ahi ext1

/-- Total size of the matching blocks of get_matching_blocks, computed by the
same recursive region decomposition (region order does not affect the sum;
fuel bounds the number of region pops). -/
def matchBlockSum (a b : List Char) : Nat → List (Nat × Nat × Nat × Nat) → Nat → Nat
  | 0, _, acc => acc
  | _ + 1, [], acc => acc
  | fuel + 1, (alo, ahi, blo, bhi) :: rest, acc =>
    let r := findLongestMatch a b alo ahi blo bhi
    let i := r.1
    let j := r.2.1
    let k := r.2.2
    if k = 0 then matchBlockSum a b fuel rest acc
    else
      matchBlockSum a b fuel
        (((if alo < i ∧ blo < j then [(alo, i, blo, j)] else []) ++
          (if i + k < ahi ∧ j + k < bhi then [(i + k, ahi, j + k, bhi)] else [])) ++ rest)
        (acc + k)

/-- difflib SequenceMatcher(None, a, b).ratio(): twice the matched total over
the combined length (1.0 for two empty sequences). -/
def seqMatchScore (a b : String) : ℚ :=
  if a.data.length + b.data.length = 0 then 1
  else 2 * (matchBlockSum a.data b.data ((a.data.length + b.data.length + 2) * 2)
      [(0, a.data.length, 0, b.data.length)] 0 : ℚ) /
    ((a.data.length : ℚ) + (b.data.length : ℚ))

/-! ## fuzzy_match_customer scoring (backend/utils/database.py) -/

/-- Normalized view of one name, as built by _initialize_customer_cache for
database names and inline by fuzzy_match_customer for extracted names:
cleaned text, personal/business classification, the matching normalization,
and buying-group keywords (business names only). -/
structure NameView where
  clean : String
  isPersonal : Bool
  normalized : String
  keywords : List String
deriving DecidableEq

/-- Preparation of one name for matching (lower, strip, deaccent, classify,
normalize, extract keywords). -/
def prepName (s : String) : NameView :=
  { clean := remove_accents (pyStrip (pyLower s))
    isPersonal := is_personal_name (remove_accents (pyStrip (pyLower s)))
    normalized :=
      if is_personal_name (remove_accents (pyStrip (pyLower s))) then
        normalize_personal_name (remove_accents (pyStrip (pyLower s)))
      else normalize_business_name (remove_accents (pyStrip (pyLower s)))
    keywords :=
      if is_personal_name (remove_accents (pyStrip (pyLower s))) then []
      else extract_buying_group_keywords (remove_accents (pyStrip (pyLower s))) }

/-- Dual base score of fuzzy_match_customer: token_set_ratio scaled to 0..1,
and when that is at least 0.70, the maximum with the Jaro-Winkler score. -/
def basePairScore (x y : String) : ℚ :=
  if 7/10 ≤ token_set_ratio x y / 100 then
    max (token_set_ratio x y / 100) (calculate_jaro_winkler_similarity x y)
  else token_set_ratio x y / 100

/-- Final pair score of fuzzy_match_customer: weighted token similarity for
personal pairs, buying-group boost for business pairs, plain base score for
mixed pairs. -/
def scorePair (name db : String) : ℚ :=
  if (prepName name).isPersonal = true ∧ (prepName db).isPersonal = true then
    calculate_weighted_token_similarity (prepName name).normalized (prepName db).normalized
      (basePairScore (prepName name).normalized (prepName db).normalized)
  else if (prepName name).isPersonal = false ∧ (prepName db).isPersonal = false then
    calculate_boosted_similarity (prepName name).normalized (prepName db).normalized
      (prepName name).keywords (prepName db).keywords
      (basePairScore (prepName name).normalized (prepName db).normalized)
  else basePairScore (prepName name).normalized (prepName db).normalized

/-- Diagnostics of a fuzzy_match_customer call. -/
structure MatchDetails where
  best_score : ℚ
  best_match_name : Option String
  best_match_id : Option Int
  threshold_used : ℚ
  matched_input : Option String
deriving DecidableEq

/-- database.fuzzy_match_customer: score every (name, customer) pair, keep the
single strictly best, and match only when the best reaches the threshold. -/
def fuzzy_match_customer (potentialNames : List String) (customers : List (Int × String))
    (threshold : ℚ := 6/10) : Option Int × Option String × MatchDetails :=
  if potentialNames = [] then (none, none, ⟨0, none, none, threshold, none⟩)
  else
    let best := potentialNames.foldl
      (fun acc pn =>
        customers.foldl
          (fun (acc : ℚ × Option Int × Option String × Option String) c =>
            if acc.1 < scorePair pn c.2 then
              (scorePair pn c.2, some c.1, some c.2, some pn)
            else acc)
          acc)
      (0, none, none, none)
    if threshold ≤ best.1 then
      (best.2.1, best.2.2.1, ⟨best.1, best.2.2.1, best.2.1, threshold, best.2.2.2⟩)
    else (none, none, ⟨best.1, best.2.2.1, best.2.1, threshold, best.2.2.2⟩)

/-! ## SKU extraction (backend/subagents/sku_extraction.py) -/

/-- COLOR_SYNONYMS of sku_extraction.py. -/
def COLOR_SYNONYMS : List (String × String) :=
  [("gris claro", "gris perla"), ("gris clara", "gris perla"),
   ("gris light", "gris perla"), ("light grey", "gris perla"),
   ("light gray", "gris perla"),
   ("gris oscuro", "gris"), ("gris oscura", "gris"),
   ("dark grey", "gris"), ("dark gray", "gris")]

/-- Diagnostics of a family or color fuzzy match. -/
structure SkuMatchDetails where
  best_score : ℚ
  closest : Option String
  threshold_used : ℚ
  input_text : String
deriving DecidableEq

/-- sku_extraction.fuzzy_match_family: best SequenceMatcher ratio against the
family descriptions, threshold 0.6 by default; returns (family code, family
description, diagnostics). -/
def fuzzy_match_family (family_text : String) (families : List (String × String))
    (threshold : ℚ := 6/10) : Option String × Option String × SkuMatchDetails :=
  let best := families.foldl
    (fun (st : ℚ × Option String × Option String) p =>
      if st.1 < seqMatchScore (pyStrip (pyLower family_text)) (pyStrip (pyLower p.1)) then
        (seqMatchScore (pyStrip (pyLower family_text)) (pyStrip (pyLower p.1)),
          some p.2, some p.1)
      else st)
    (0, none, none)
  if threshold ≤ best.1 then (best.2.1, best.2.2, ⟨best.1, best.2.2, threshold, family_text⟩)
  else (none, none, ⟨best.1, best.2.2, threshold, family_text⟩)

/-- sku_extraction.fuzzy_match_color: map known color synonyms to their
canonical name, then best SequenceMatcher ratio against the color
descriptions, threshold 0.6 by default. -/
def fuzzy_match_color (color_text : String) (colors : List (String × String))
    (threshold : ℚ := 6/10) : Option String × SkuMatchDetails :=
  let ct :=
    match lookupStr (pyStrip (pyLower color_text)) COLOR_SYNONYMS with
    | some c => c
    | none => pyStrip (pyLower color_text)
  let best := colors.foldl
    (fun (st : ℚ × Option String × Option String) p =>
      if st.1 < seqMatchScore ct (pyStrip (pyLower p.1)) then
        (seqMatchScore ct (pyStrip (pyLower p.1)), some p.2, some p.1)
      else st)
    (0, none, none)
  if threshold ≤ best.1 then (best.2.1, ⟨best.1, best.2.2, threshold, color_text⟩)
  else (none, ⟨best.1, best.2.2, threshold, color_text⟩)

/-- Decimal digit characters of a natural number (fuel-driven long division,
fuel always suffices at fuel = n + 1). -/
def natStrCore : Nat → Nat → List Char
  | 0, _ => []
  | fuel + 1, n =>
    if n < 10 then [Char.ofNat (48 + n)]
    else natStrCore fuel (n / 10) ++ [Char.ofNat (48 + n % 10)]

/-- Python str(n) for a natural number. -/
def natStr (n : Nat) : String := ⟨natStrCore (n + 1) n⟩

/-- Python s.zfill(w): left-pad with zeros to width w. -/
def pyZfill (s : String) (w : Nat) : String :=
  if w ≤ s.data.length then s else ⟨List.replicate (w - s.data.length) '0' ++ s.data⟩

/-- Dimension canonicalization of construct_sku: swap so that the larger
dimension comes first. -/
def skuDims (length width : Nat) : Nat × Nat :=
  if length < width then (width, length) else (length, width)

/-- The 13-character concatenation of construct_sku. -/
def skuRaw (familyCode : String) (length width : Nat) (colorCode : String) : String :=
  familyCode ++ pyZfill (natStr (skuDims length width).1) 3 ++
    pyZfill (natStr (skuDims length width).2) 3 ++ colorCode

/-- sku_extraction.construct_sku: family code, zero-padded longer then shorter
dimension, color code; None when the result is not exactly 13 characters. -/
def construct_sku (familyCode : String) (length width : Nat) (colorCode : String) :
    Option String :=
  if (skuRaw familyCode length width colorCode).length ≠ 13 then none
  else some (skuRaw familyCode length width colorCode)

/-! ## Valve detection (backend/subagents/valve_detection.py) -/

/-- VALID_VALVE_VALUES. -/
def VALID_VALVE_VALUES : List String :=
  ["Yes", "no", "Horizontal valve", "Vertical valve", "Rectangular valve"]

/-- Length correction applied to a valve list: identity on the right length,
pad with "no" when too short, truncate when too long.  This same correction
appears in detect_valve_request (valve_detection.py) and again in the phase-4
merge (task_extract_data.py). -/
def alignValves (valves : List String) (n : Nat) : List String :=
  if valves.length = n then valves
  else if valves.length < n then valves ++ List.replicate (n - valves.length) "no"
  else valves.take n

/-- valve_detection.detect_valve_request, as a function of the raw "valves"
value of the model response (none models a non-list value; the exception path
of the source also yields the all-"no" list) and the order-line count: length
correction, then replacement of invalid entries by "no". -/
def detect_valve_request (rawValves : Option (List String)) (num_order_lines : Nat) :
    List String :=
  match rawValves with
  | none => List.replicate num_order_lines "no"
  | some valves =>
    (alignValves valves num_order_lines).map
      (fun v => if v ∈ VALID_VALVE_VALUES then v else "no")

/-! ## Customer id extraction (backend/subagents/customer_id.py) -/

/-- Write-once failure diagnostic record (Failure Context), covering the
fields used by the customer_id and sku_extraction kinds plus the annotations
added by the orchestrator. -/
structure FailureContext where
  ftype : String := ""
  extracted_names : List String := []
  best_match_name : Option String := none
  best_match_id : Option Int := none
  best_match_score : ℚ := 0
  threshold_used : ℚ := 0
  email_snippet : Option String := none
  email_lookup_attempted : Bool := false
  email_lookup_address : Option String := none
  reason : Option String := none
  order_number : Option Nat := none
  entry_id : Option String := none
  customer_id : Option Int := none
  customer_name : Option String := none
  exception_message : Option String := none
deriving DecidableEq

/-- Return value of extract_customer_id. -/
structure CustomerResult where
  customer_id : Option Int
  customer_name : Option String
  potential_names : List String
  matched_via : Option String := none
  matched_email : Option String := none
  error : Option String := none
  failure_context : Option FailureContext := none
deriving DecidableEq

/-- Shape of the model response consumed by extract_customer_id. -/
structure LlmCustomerResponse where
  customer_id : Option Int := none
  customer_name : Option String := none
  needs_fuzzy_match : Bool := true
  customer_names : List String := []
deriving DecidableEq

/-- customer_id.try_email_lookup_fallback, as a function of the sender address
parsed from the email body (none when no De: line yields an address) and of
the address-registry lookup result for that address: id, name and the matched
address on success. -/
def tryEmailLookupFallback (senderEmail : Option String)
    (emailDbHit : Option (Int × String)) : Option (Int × String × String) :=
  match senderEmail with
  | none => none
  | some e => emailDbHit.map (fun p => (p.1, p.2, e))

/-- customer_id.extract_customer_id control flow: hardcoded-customer
short-circuit; with zero candidate names the email fallback or a no-match
result without Failure Context; otherwise fuzzy matching at threshold 0.85,
then the email fallback, then a no-match result carrying a customer_id
Failure Context with email_lookup_attempted set. -/
def extract_customer_id (resp : LlmCustomerResponse) (customers : List (Int × String))
    (senderEmail : Option String) (emailDbHit : Option (Int × String))
    (emailText : String) : CustomerResult :=
  if resp.customer_id.isSome && !resp.needs_fuzzy_match then
    { customer_id := resp.customer_id, customer_name := resp.customer_name,
      potential_names := resp.customer_name.toList, error := none }
  else if resp.customer_names = [] then
    match tryEmailLookupFallback senderEmail emailDbHit with
    | some hit =>
      { customer_id := some hit.1, customer_name := some hit.2.1,
        potential_names := [], matched_via := some "email_lookup",
        matched_email := some hit.2.2, error := none }
    | none =>
      { customer_id := none, customer_name := none, potential_names := [],
        error := some "No customer names found in email and email lookup fallback failed",
        failure_context := none }
  else
    match fuzzy_match_customer resp.customer_names customers (85/100) with
    | (some cid, cname, _) =>
      { customer_id := some cid, customer_name := cname,
        potential_names := resp.customer_names, error := none }
    | (none, _, details) =>
      match tryEmailLookupFallback senderEmail emailDbHit with
      | some hit =>
        { customer_id := some hit.1, customer_name := some hit.2.1,
          potential_names := resp.customer_names, matched_via := some "email_lookup",
          matched_email := some hit.2.2, error := none }
      | none =>
        { customer_id := none, customer_name := none,
          potential_names := resp.customer_names,
          error := some "No database match found (email lookup also failed)",
          failure_context := some
            { ftype := "customer_id",
              extracted_names := resp.customer_names,
              best_match_name := details.best_match_name,
              best_match_id := details.best_match_id,
              best_match_score := details.best_score,
              threshold_used := 85/100,
              email_snippet := some (pyTake emailText 500),
              email_lookup_attempted := true,
              email_lookup_address := senderEmail } }

/-! ## Orchestrator (backend/tasks/task_extract_data.py, process_single_email) -/

/-- One resolved product line from phase 2. -/
structure SkuLine where
  sku : String
  quantity : Int
  family_desc : String
deriving DecidableEq

/-- Return value of phase 2 (extract_sku_and_quantity). -/
structure SkuResult where
  order_lines : List SkuLine
  error : Option String := none
  failure_context : Option FailureContext := none
deriving DecidableEq

/-- The phase-3 results as consumed by the merge: reference numbers, the raw
valve list handed to the merge (none models the per-task exception
substitution, whose dict lacks a "valves" key), scalar fields, promised-ship
dates and the entry id from the cpsd extraction. -/
structure Phase3 where
  reference_nos : List String := []
  valvesRes : Option (List String) := none
  delivery_address : Option String := none
  telephone_number : Option String := none
  contact_name : Option String := none
  cpsds : List String := []
  cpsd_entry_id : Option String := none
  option_sku : Option String := none
  option_qty : Option Int := none
deriving DecidableEq

/-- One output order-line record. -/
structure OrderRow where
  orderno : Nat
  customerid : Option Int
  customer_name : Option String
  sku : Option String
  quantity : Option Int
  reference_no : Option String
  valve : String
  delivery_address : Option String
  cpsd : Option String
  entry_id : String
  option_sku : Option String
  option_qty : Option Int
  telephone_number : Option String
  contact_name : Option String
  error : Option String := none
  email_text : Option String := none
deriving DecidableEq

/-- Python truthiness of an optional string (None and the empty string are
falsy). -/
def pyTruthyStr : Option String → Bool
  | none => false
  | some s => if s = "" then false else true

/-- Python truthiness of an optional integer (None and 0 are falsy). -/
def pyTruthyInt : Option Int → Bool
  | none => false
  | some v => if v = 0 then false else true

/-- Phase-1 failure test of process_single_email:
customer_result.get("error") or not customer_result.get("customer_id"). -/
def phase1Failed (c : CustomerResult) : Bool :=
  pyTruthyStr c.error || !pyTruthyInt c.customer_id

/-- Phase-2 failure test of process_single_email:
sku_result.get("error") or not sku_result.get("order_lines"). -/
def phase2Failed (s : SkuResult) : Bool :=
  pyTruthyStr s.error || s.order_lines.isEmpty

/-- The single failure-stub row emitted when phase 1 fails. -/
def customerFailStub (orderno : Nat) (messageId : String) (emailText : String)
    (c : CustomerResult) : OrderRow :=
  { orderno := orderno, customerid := none, customer_name := none, sku := none,
    quantity := none, reference_no := none, valve := "no", delivery_address := none,
    cpsd := none, entry_id := messageId, option_sku := none, option_qty := none,
    telephone_number := none, contact_name := none, error := c.error,
    email_text := some (pyTake emailText 500) }

/-- The single failure-stub row emitted when phase 2 fails. -/
def skuFailStub (orderno : Nat) (messageId : String) (emailText : String)
    (c : CustomerResult) (s : SkuResult) : OrderRow :=
  { orderno := orderno, customerid := c.customer_id, customer_name := c.customer_name,
    sku := none, quantity := none, reference_no := none, valve := "no",
    delivery_address := none, cpsd := none, entry_id := messageId, option_sku := none,
    option_qty := none, telephone_number := none, contact_name := none,
    error := s.error, email_text := some (pyTake emailText 500) }

/-- Annotation of a phase-1 failure context with order number and entry id. -/
def annotateFc (fc : FailureContext) (orderno : Nat) (mid : String) : FailureContext :=
  { fc with order_number := some orderno, entry_id := some mid }

/-- Annotation of a phase-2 failure context, which also records the resolved
customer. -/
def annotateFc2 (fc : FailureContext) (orderno : Nat) (mid : String)
    (c : CustomerResult) : FailureContext :=
  { fc with order_number := some orderno, entry_id := some mid,
            customer_id := c.customer_id, customer_name := c.customer_name }

/-- CPSD cardinality alignment of the phase-4 merge: positional on equal
counts, broadcast on count one, otherwise (zero or mismatched count) null for
every line. -/
def cpsdAlign (cpsds : List String) (n : Nat) : List (Option String) :=
  if cpsds.length = n then cpsds.map some
  else if cpsds.length = 1 then List.replicate n cpsds.head?
  else List.replicate n none

/-- Reference-number cardinality alignment of the phase-4 merge: positional on
equal counts, broadcast on count one, comma-joined concatenation when several
references meet a single line, otherwise null for every line. -/
def refAlign (refs : List String) (n : Nat) : List (Option String) :=
  if refs.length = n then refs.map some
  else if refs.length = 1 then List.replicate n refs.head?
  else if 1 < refs.length ∧ n = 1 then [some (String.intercalate ", " refs)]
  else List.replicate n none

/-- Entry id selection of the merge: the cpsd-extracted entry id when truthy,
else the message id. -/
def finalEntryId (p3 : Phase3) (mid : String) : String :=
  match p3.cpsd_entry_id with
  | some e => if e = "" then mid else e
  | none => mid

/-- Phase-4 merge: one output row per resolved product line, with aligned
reference numbers, valves and dates and broadcast scalar fields. -/
def mergeOrders (orderno : Nat) (mid : String) (cid : Option Int) (cname : Option String)
    (lines : List SkuLine) (p3 : Phase3) : List OrderRow :=
  lines.enum.map (fun il =>
    { orderno := orderno, customerid := cid, customer_name := cname,
      sku := some il.2.sku, quantity := some il.2.quantity,
      reference_no := (refAlign p3.reference_nos lines.length).getD il.1 none,
      valve := (alignValves (p3.valvesRes.getD (List.replicate lines.length "no"))
        lines.length).getD il.1 "no",
      delivery_address := p3.delivery_address,
      cpsd := (cpsdAlign p3.cpsds lines.length).getD il.1 none,
      entry_id := finalEntryId p3 mid,
      option_sku := p3.option_sku, option_qty := p3.option_qty,
      telephone_number := p3.telephone_number, contact_name := p3.contact_name,
      error := none, email_text := none })

/-- task_extract_data.process_single_email: phase-1 and phase-2 fail-fast
stubs (one row per email), else the phase-4 merge; paired with the failure
contexts collected for the email. -/
def process_single_email (orderno : Nat) (mid : String) (etext : String)
    (c : CustomerResult) (s : SkuResult) (p3 : Phase3) :
    List OrderRow × List FailureContext :=
  if phase1Failed c then
    ([customerFailStub orderno mid etext c],
      (c.failure_context.map (fun fc => annotateFc fc orderno mid)).toList)
  else if phase2Failed s then
    ([skuFailStub orderno mid etext c s],
      (s.failure_context.map (fun fc => annotateFc2 fc orderno mid c)).toList)
  else (mergeOrders orderno mid c.customer_id c.customer_name s.order_lines p3, [])

/-- The per-email placeholder row added by extract_data_task when
process_single_email itself raises. -/
def taskExceptionStub (orderno : Nat) (mid : String) (etext : String)
    (msg : String) : OrderRow :=
  { orderno := orderno, customerid := none, customer_name := none, sku := none,
    quantity := none, reference_no := none, valve := "no", delivery_address := none,
    cpsd := none, entry_id := mid, option_sku := none, option_qty := none,
    telephone_number := none, contact_name := none, error := some msg,
    email_text := some (pyTake etext 500) }

/-! ## Supporting lemmas for the claims -/

theorem natStrCore_len_le :
    ∀ k : Nat, 1 ≤ k → ∀ fuel n : Nat, n < fuel → n < 10 ^ k →
      (natStrCore fuel n).length ≤ k := by
  intro k
  induction k with
  | zero => intro h; omega
  | succ k ih =>
    intro _ fuel n hfuel hbound
    cases fuel with
    | zero => omega
    | succ f =>
      rw [natStrCore]
      split_ifs with h10
      · simp
      · rw [List.length_append]
        simp only [List.length_singleton]
        have hk1 : 1 ≤ k := by
          by_contra hk
          have hk0 : k = 0 := by omega
          subst hk0
          norm_num at hbound
          omega
        have hn10 : n / 10 < f := by
          have : n / 10 < n := Nat.div_lt_self (by omega) (by norm_num)
          omega
        have hb : n / 10 < 10 ^ k := by
          rw [pow_succ, mul_comm] at hbound
          exact Nat.div_lt_of_lt_mul hbound
        have := ih hk1 f (n / 10) hn10 hb
        omega

theorem natStr_len_le3 (n : Nat) (h : n ≤ 999) : (natStr n).data.length ≤ 3 := by
  have h1000 : n < 10 ^ 3 := by norm_num; omega
  exact natStrCore_len_le 3 (by norm_num) (n + 1) n (Nat.lt_succ_self n) h1000

theorem pyZfill3_length (s : String) (h : s.data.length ≤ 3) : (pyZfill s 3).length = 3 := by
  rw [pyZfill]
  split_ifs with h3
  · show s.data.length = 3
    omega
  · show (List.replicate (3 - s.data.length) '0' ++ s.data).length = 3
    rw [List.length_append, List.length_replicate]
    omega

theorem skuDims_swap (l w : Nat) : skuDims l w = skuDims w l := by
  rw [skuDims, skuDims]
  rcases Nat.lt_trichotomy l w with h | h | h
  · rw [if_pos h, if_neg (Nat.lt_asymm h)]
  · rw [h]
  · rw [if_neg (Nat.lt_asymm h), if_pos h]

theorem skuDims_le {l w : Nat} (hl : l ≤ 999) (hw : w ≤ 999) :
    (skuDims l w).1 ≤ 999 ∧ (skuDims l w).2 ≤ 999 := by
  rw [skuDims]
  split_ifs
  · exact ⟨hw, hl⟩
  · exact ⟨hl, hw⟩

/-- Claim C3: construct_sku always emits the larger dimension first, so it is
symmetric in (length, width); for a 3-character family code, a 4-character
color code and dimensions of at most three digits the output is exactly 13
characters; and construct_sku("NAT", 80, 140, "BLCO") = "NAT140080BLCO". -/
theorem construct_sku_canonical :
    (∀ (family color : String) (l w : Nat),
      construct_sku family l w color = construct_sku family w l color) ∧
    (∀ (family color : String) (l w : Nat), family.length = 3 → color.length = 4 →
      l ≤ 999 → w ≤ 999 →
      ∃ s, construct_sku family l w color = some s ∧ s.length = 13) ∧
    construct_sku "NAT" 80 140 "BLCO" = some "NAT140080BLCO" := by
  refine ⟨?_, ?_, by decide⟩
  · intro family color l w
    rw [construct_sku, construct_sku, skuRaw, skuRaw, skuDims_swap]
  · intro family color l w hf hc hl hw
    obtain ⟨hd1, hd2⟩ := skuDims_le hl hw
    have hz1 : (pyZfill (natStr (skuDims l w).1) 3).length = 3 :=
      pyZfill3_length _ (natStr_len_le3 _ hd1)
    have hz2 : (pyZfill (natStr (skuDims l w).2) 3).length = 3 :=
      pyZfill3_length _ (natStr_len_le3 _ hd2)
    have hlen : (skuRaw family l w color).length = 13 := by
      rw [skuRaw, String.length_append, String.length_append, String.length_append,
        hz1, hz2, hf, hc]
    refine ⟨skuRaw family l w color, ?_, hlen⟩
    rw [construct_sku, if_neg (fun hne => hne hlen)]

/-- Claim C3 witness at a concrete admissible input. -/
theorem construct_sku_canonical_witness :
    ∃ s, construct_sku "ABC" 999 80 "BLCO" = some s ∧ s.length = 13 :=
  construct_sku_canonical.2.1 "ABC" "BLCO" 999 80 rfl rfl (by decide) (by decide)

/-- Claim C4 (the code violates the broadcast reading): with a single
extracted valve value and three order lines, detect_valve_request pads with
the default instead of broadcasting: the result is the value followed by two
"no" entries, not three copies of the value. -/
theorem valve_single_not_broadcast :
    detect_valve_request (some ["Vertical valve"]) 3 = ["Vertical valve", "no", "no"] ∧
    detect_valve_request (some ["Vertical valve"]) 3 ≠ List.replicate 3 "Vertical valve" :=
  ⟨by decide, by decide⟩

/-- Claim C4 as amended: when the extracted valve list has count 1 and the
target count exceeds 1, the single value is assigned to the first line only
and the remaining lines are padded with the default "no", both in
detect_valve_request and in the merge-side length correction. -/
theorem valve_single_pads :
    (∀ (v : String) (n : Nat), v ∈ VALID_VALVE_VALUES → 1 < n →
      detect_valve_request (some [v]) n = v :: List.replicate (n - 1) "no") ∧
    (∀ (v : String) (n : Nat), 1 < n →
      alignValves [v] n = v :: List.replicate (n - 1) "no") := by
  have pad : ∀ (v : String) (n : Nat), 1 < n →
      alignValves [v] n = v :: List.replicate (n - 1) "no" := by
    intro v n hn
    rw [alignValves]
    simp only [List.length_singleton]
    rw [if_neg (by omega), if_pos (by omega), List.singleton_append]
  refine ⟨fun v n hv hn => ?_, pad⟩
  show (alignValves [v] n).map (fun x => if x ∈ VALID_VALVE_VALUES then x else "no") = _
  rw [pad v n hn, List.map_cons, List.map_replicate, if_pos hv,
    if_pos (by decide : ("no" : String) ∈ VALID_VALVE_VALUES)]

/-- Claim C4 witness: a concrete valid valve value and three lines. -/
theorem valve_single_pads_witness :
    detect_valve_request (some ["Yes"]) 3 = "Yes" :: List.replicate 2 "no" ∧
    alignValves ["Yes"] 3 = "Yes" :: List.replicate 2 "no" :=
  ⟨valve_single_pads.1 "Yes" 3 (by decide) (by decide),
    valve_single_pads.2 "Yes" 3 (by decide)⟩

/-- Claim C2: for every extracted list length and target line count N of at
least one, the three per-field assignment lists of the phase-4 merge (dates,
reference numbers, valve flags) have length exactly N, and the merge emits
exactly N order-line records. -/
theorem alignment_lengths :
    ∀ (cpsds refs : List String) (vres : Option (List String)) (lines : List SkuLine)
      (orderno : Nat) (mid : String) (cid : Option Int) (cname : Option String)
      (p3 : Phase3),
      1 ≤ lines.length →
      (cpsdAlign cpsds lines.length).length = lines.length ∧
      (refAlign refs lines.length).length = lines.length ∧
      (alignValves (vres.getD (List.replicate lines.length "no"))
        lines.length).length = lines.length ∧
      (mergeOrders orderno mid cid cname lines
        { p3 with cpsds := cpsds, reference_nos := refs, valvesRes := vres }).length =
        lines.length := by
  intro cpsds refs vres lines orderno mid cid cname p3 _
  refine ⟨?_, ?_, ?_, ?_⟩
  · rw [cpsdAlign]
    split_ifs with h1 h2
    · simp [h1]
    · simp
    · simp
  · rw [refAlign]
    split_ifs with h1 h2 h3
    · simp [h1]
    · simp
    · simp [h3.2]
    · simp
  · rw [alignValves]
    split_ifs with h1 h2 <;>
      simp only [List.length_append, List.length_replicate, List.length_take, *] <;> omega
  · rw [mergeOrders]
    rw [List.length_map, List.enum_length]

/-- Claim C2 witness: mismatched date count, one reference, an over-long valve
list, three lines. -/
theorem alignment_lengths_witness :
    (cpsdAlign ["2025-01-01", "2025-01-02"] 3).length = 3 ∧
    (refAlign ["r1"] 3).length = 3 ∧
    (alignValves ((some ["Yes", "no", "no", "no"]).getD (List.replicate 3 "no")) 3).length = 3 ∧
    (mergeOrders 1 "mid" (some 5) (some "CUST")
      [⟨"NAT140080BLCO", 1, "Nature"⟩, ⟨"NAT150080BLCO", 2, "Nature"⟩,
        ⟨"NAT130080BLCO", 1, "Nature"⟩]
      { ({} : Phase3) with
          cpsds := ["2025-01-01", "2025-01-02"],
          reference_nos := ["r1"],
          valvesRes := some ["Yes", "no", "no", "no"] }).length = 3 := by
  have h := alignment_lengths ["2025-01-01", "2025-01-02"] ["r1"]
    (some ["Yes", "no", "no", "no"])
    [⟨"NAT140080BLCO", 1, "Nature"⟩, ⟨"NAT150080BLCO", 2, "Nature"⟩,
      ⟨"NAT130080BLCO", 1, "Nature"⟩]
    1 "mid" (some 5) (some "CUST") ({} : Phase3) (by decide)
  exact h

/-- Claim C8: whenever phase 1 fails (error set or no truthy customer id) the
orchestrator returns exactly the single customer failure stub, independent of
the phase-2 and phase-3 inputs, which therefore are never consulted; and
whenever phase 1 succeeds but phase 2 fails it returns exactly the single sku
failure stub, independent of the phase-3 inputs. -/
theorem fail_fast_single_stub :
    (∀ (orderno : Nat) (mid etext : String) (c : CustomerResult) (s : SkuResult)
      (p3 : Phase3), phase1Failed c = true →
      process_single_email orderno mid etext c s p3 =
        ([customerFailStub orderno mid etext c],
          (c.failure_context.map (fun fc => annotateFc fc orderno mid)).toList) ∧
      (process_single_email orderno mid etext c s p3).1.length = 1) ∧
    (∀ (orderno : Nat) (mid etext : String) (c : CustomerResult) (s : SkuResult)
      (p3 : Phase3), phase1Failed c = false → phase2Failed s = true →
      process_single_email orderno mid etext c s p3 =
        ([skuFailStub orderno mid etext c s],
          (s.failure_context.map (fun fc => annotateFc2 fc orderno mid c)).toList) ∧
      (process_single_email orderno mid etext c s p3).1.length = 1) := by
  constructor
  · intro orderno mid etext c s p3 h
    have heq : process_single_email orderno mid etext c s p3 =
        ([customerFailStub orderno mid etext c],
          (c.failure_context.map (fun fc => annotateFc fc orderno mid)).toList) := by
      rw [process_single_email, if_pos h]
    exact ⟨heq, by rw [heq]; rfl⟩
  · intro orderno mid etext c s p3 h1 h2
    have heq : process_single_email orderno mid etext c s p3 =
        ([skuFailStub orderno mid etext c s],
          (s.failure_context.map (fun fc => annotateFc2 fc orderno mid c)).toList) := by
      rw [process_single_email, if_neg (by rw [h1]; exact Bool.false_ne_true), if_pos h2]
    exact ⟨heq, by rw [heq]; rfl⟩

/-- Claim C8 witness: a failed customer phase and, separately, a resolved
customer with a failed product-line phase. -/
theorem fail_fast_single_stub_witness :
    (process_single_email 1 "mid" "body"
        { customer_id := none, customer_name := none, potential_names := [],
          error := some "no match" }
        { order_lines := [⟨"NAT140080BLCO", 1, "Nature"⟩] } {} =
      ([customerFailStub 1 "mid" "body"
          { customer_id := none, customer_name := none, potential_names := [],
            error := some "no match" }], []) ∧
      (process_single_email 1 "mid" "body"
        { customer_id := none, customer_name := none, potential_names := [],
          error := some "no match" }
        { order_lines := [⟨"NAT140080BLCO", 1, "Nature"⟩] } {}).1.length = 1) ∧
    (process_single_email 2 "mid2" "body2"
        { customer_id := some 5, customer_name := some "CUST", potential_names := ["CUST"] }
        { order_lines := [], error := some "no lines" } {} =
      ([skuFailStub 2 "mid2" "body2"
          { customer_id := some 5, customer_name := some "CUST", potential_names := ["CUST"] }
          { order_lines := [], error := some "no lines" }], []) ∧
      (process_single_email 2 "mid2" "body2"
        { customer_id := some 5, customer_name := some "CUST", potential_names := ["CUST"] }
        { order_lines := [], error := some "no lines" } {}).1.length = 1) := by
  constructor
  · exact fail_fast_single_stub.1 1 "mid" "body" _ _ {} (by decide)
  · exact fail_fast_single_stub.2 2 "mid2" "body2" _ _ {} (by decide) (by decide)

theorem mem_alignValves {x : String} {l : List String} {n : Nat} :
    x ∈ alignValves l n → x ∈ l ∨ x = "no" := by
  rw [alignValves]
  split_ifs with h1 h2
  · exact Or.inl
  · intro hx
    rcases List.mem_append.mp hx with h | h
    · exact Or.inl h
    · exact Or.inr (List.eq_of_mem_replicate h)
  · intro hx
    exact Or.inl (List.mem_of_mem_take hx)

theorem getD_mem_or {α : Type} (l : List α) (i : Nat) (d : α) :
    l.getD i d ∈ l ∨ l.getD i d = d := by
  by_cases h : i < l.length
  · left
    rw [List.getD_eq_getElem l d h]
    exact List.getElem_mem h
  · right
    exact List.getD_eq_default l d (by omega)

theorem detect_valve_request_valid (vraw : Option (List String)) (n : Nat) :
    ∀ x ∈ detect_valve_request vraw n, x ∈ VALID_VALVE_VALUES := by
  intro x hx
  cases vraw with
  | none =>
    rw [show detect_valve_request none n = List.replicate n "no" from rfl] at hx
    rw [List.eq_of_mem_replicate hx]
    decide
  | some l =>
    rw [show detect_valve_request (some l) n =
        (alignValves l n).map (fun v => if v ∈ VALID_VALVE_VALUES then v else "no")
      from rfl] at hx
    rcases List.mem_map.mp hx with ⟨v, _, rfl⟩
    split_ifs with h
    · exact h
    · decide

/-- Claim C9: every order-line record the orchestrator produces — merged line
or failure stub, including the task-level exception placeholder — carries a
valve value from the five-value enum, given that the merge receives its valve
list from detect_valve_request (or the all-default substitution of a raised
phase-3 task). -/
theorem valve_enum_invariant :
    ∀ (orderno : Nat) (mid etext : String) (c : CustomerResult) (s : SkuResult)
      (p3 : Phase3) (vres : Option (List String)) (msg : String),
      (vres = none ∨ ∃ vraw, vres = some (detect_valve_request vraw s.order_lines.length)) →
      (∀ row ∈ (process_single_email orderno mid etext c s
          { p3 with valvesRes := vres }).1, row.valve ∈ VALID_VALVE_VALUES) ∧
      (taskExceptionStub orderno mid etext msg).valve ∈ VALID_VALVE_VALUES := by
  intro orderno mid etext c s p3 vres msg hv
  have hvlist : ∀ x ∈ vres.getD (List.replicate s.order_lines.length "no"),
      x ∈ VALID_VALVE_VALUES := by
    rcases hv with rfl | ⟨vraw, rfl⟩
    · intro x hx
      rw [Option.getD_none] at hx
      rw [List.eq_of_mem_replicate hx]
      decide
    · intro x hx
      rw [Option.getD_some] at hx
      exact detect_valve_request_valid vraw s.order_lines.length x hx
  refine ⟨?_, show ("no" : String) ∈ VALID_VALVE_VALUES by decide⟩
  intro row hrow
  rw [process_single_email] at hrow
  split_ifs at hrow with h1 h2
  · rcases List.mem_singleton.mp hrow with rfl
    show ("no" : String) ∈ VALID_VALVE_VALUES
    decide
  · rcases List.mem_singleton.mp hrow with rfl
    show ("no" : String) ∈ VALID_VALVE_VALUES
    decide
  · rw [mergeOrders] at hrow
    rcases List.mem_map.mp hrow with ⟨il, _, rfl⟩
    show (alignValves (vres.getD (List.replicate s.order_lines.length "no"))
      s.order_lines.length).getD il.1 "no" ∈ VALID_VALVE_VALUES
    rcases getD_mem_or (alignValves (vres.getD (List.replicate s.order_lines.length "no"))
      s.order_lines.length) il.1 "no" with h | h
    · rcases mem_alignValves h with h2 | h2
      · exact hvlist _ h2
      · rw [h2]; decide
    · rw [h]; decide

/-- Claim C9 witness: two resolved lines, a valve list from
detect_valve_request, and a concrete exception message. -/
theorem valve_enum_invariant_witness :
    (∀ row ∈ (process_single_email 1 "mid" "body"
        { customer_id := some 5, customer_name := some "CUST", potential_names := ["CUST"] }
        { order_lines := [⟨"NAT140080BLCO", 1, "Nature"⟩, ⟨"NAT150080BLCO", 2, "Nature"⟩] }
        { ({} : Phase3) with
            valvesRes := some (detect_valve_request (some ["Vertical valve"]) 2) }).1,
      row.valve ∈ VALID_VALVE_VALUES) ∧
    (taskExceptionStub 1 "mid" "body" "boom").valve ∈ VALID_VALVE_VALUES :=
  valve_enum_invariant 1 "mid" "body"
    { customer_id := some 5, customer_name := some "CUST", potential_names := ["CUST"] }
    { order_lines := [⟨"NAT140080BLCO", 1, "Nature"⟩, ⟨"NAT150080BLCO", 2, "Nature"⟩] }
    {} (some (detect_valve_request (some ["Vertical valve"]) 2)) "boom"
    (Or.inr ⟨some ["Vertical valve"], rfl⟩)

/-- Claim C6: the candidate "MARIA ANTONIO BARROSO" and the canonical record
"BARROSO MORALES MARIA ANTONIA" are both classified personal, normalize to
gender-unified sorted duplicate-free token strings, share the surname
"barroso" (one surname match feeding the boost), and their final pair score
reaches 0.85. -/
theorem personal_pair_scoring_barroso :
    (prepName "MARIA ANTONIO BARROSO").isPersonal = true ∧
    (prepName "BARROSO MORALES MARIA ANTONIA").isPersonal = true ∧
    (prepName "MARIA ANTONIO BARROSO").normalized = "antonia barroso maria" ∧
    (prepName "BARROSO MORALES MARIA ANTONIA").normalized =
      "antonia barroso maria morales" ∧
    surnameMatches "antonia barroso maria" "antonia barroso maria morales" = 1 ∧
    (85/100 : ℚ) ≤ scorePair "MARIA ANTONIO BARROSO" "BARROSO MORALES MARIA ANTONIA" := by
  have hA : prepName "MARIA ANTONIO BARROSO" =
      ⟨"maria antonio barroso", true, "antonia barroso maria", []⟩ := by decide
  have hB : prepName "BARROSO MORALES MARIA ANTONIA" =
      ⟨"barroso morales maria antonia", true, "antonia barroso maria morales", []⟩ := by
    decide
  have htok : token_set_ratio "antonia barroso maria" "antonia barroso maria morales" =
      100 := by decide
  have hbase : (1 : ℚ) ≤
      basePairScore "antonia barroso maria" "antonia barroso maria morales" := by
    rw [basePairScore, htok, if_pos (by norm_num : (7/10 : ℚ) ≤ 100/100)]
    calc (1 : ℚ) = 100/100 := by norm_num
    _ ≤ _ := le_max_left _ _
  have hcom : ¬ commonToks "antonia barroso maria" "antonia barroso maria morales" = [] := by
    decide
  have hsur : surnameMatches "antonia barroso maria" "antonia barroso maria morales" = 1 := by
    decide
  have hscore : scorePair "MARIA ANTONIO BARROSO" "BARROSO MORALES MARIA ANTONIA" =
      calculate_weighted_token_similarity "antonia barroso maria"
        "antonia barroso maria morales"
        (basePairScore "antonia barroso maria" "antonia barroso maria morales") := by
    simp only [scorePair, hA, hB, eq_self_iff_true, and_self, if_true]
  refine ⟨by rw [hA], by rw [hB], by rw [hA], by rw [hB], hsur, ?_⟩
  rw [hscore, calculate_weighted_token_similarity, if_neg hcom,
    if_pos (by rw [hsur]; norm_num), hsur]
  refine le_min ?_ (by norm_num)
  have : min ((1 : Nat) * (3/100) : ℚ) (6/100) = 3/100 := by norm_num
  rw [Nat.cast_one] at this ⊢
  rw [this]
  linarith [hbase]

theorem seqScore_gris_perla : seqMatchScore "gris perla" "perla gris" = 1/2 := by
  have h1 : "gris perla".data.length = 10 := by decide
  have h2 : "perla gris".data.length = 10 := by decide
  have hm : matchBlockSum "gris perla".data "perla gris".data ((10 + 10 + 2) * 2)
      [(0, 10, 0, 10)] 0 = 5 := by decide
  rw [seqMatchScore, h1, h2, hm]
  norm_num

theorem seqScore_perla_refl : seqMatchScore "perla gris" "perla gris" = 1 := by
  have h2 : "perla gris".data.length = 10 := by decide
  have hm : matchBlockSum "perla gris".data "perla gris".data ((10 + 10 + 2) * 2)
      [(0, 10, 0, 10)] 0 = 10 := by decide
  rw [seqMatchScore, h2, hm]
  norm_num

/-- Claim C5 (falsified): the scorer of fuzzy_match_family and
fuzzy_match_color is not the token-set metric of the customer engine: on the
word-permuted pair "gris perla" / "perla gris" it disagrees with
token_set_ratio, and it is not order-insensitive. -/
theorem family_scorer_not_token_set :
    seqMatchScore "gris perla" "perla gris" ≠
      token_set_ratio "gris perla" "perla gris" / 100 ∧
    seqMatchScore "gris perla" "perla gris" ≠ seqMatchScore "perla gris" "perla gris" := by
  have h2 : token_set_ratio "gris perla" "perla gris" = 100 := by decide
  rw [seqScore_gris_perla, h2, seqScore_perla_refl]
  constructor <;> norm_num

/-- Claim C5 as amended: family and color free text is scored by the
character-block SequenceMatcher ratio, which is order-sensitive and differs
from the order-insensitive token-set metric used for customer names; it is
applied with default threshold 0.6, so the word-permuted color pair
"gris perla" / "perla gris" scores 1/2 and fails to match even though the
token-set metric would give it a full score. -/
theorem family_color_scorer_is_sequence_matcher :
    seqMatchScore "gris perla" "perla gris" = 1/2 ∧
    seqMatchScore "perla gris" "perla gris" = 1 ∧
    token_set_ratio "gris perla" "perla gris" = 100 ∧
    fuzzy_match_family "gris perla" [("perla gris", "NAT")] =
      (none, none, ⟨1/2, some "perla gris", 6/10, "gris perla"⟩) ∧
    fuzzy_match_color "gris perla" [("perla gris", "7035")] =
      (none, ⟨1/2, some "perla gris", 6/10, "gris perla"⟩) := by
  have hp1 : pyStrip (pyLower "gris perla") = "gris perla" := by decide
  have hp2 : pyStrip (pyLower "perla gris") = "perla gris" := by decide
  have hlk : lookupStr "gris perla" COLOR_SYNONYMS = none := by decide
  refine ⟨seqScore_gris_perla, seqScore_perla_refl, by decide, ?_, ?_⟩
  · simp only [fuzzy_match_family, List.foldl_cons, List.foldl_nil, hp1, hp2,
      seqScore_gris_perla]
    norm_num
  · simp only [fuzzy_match_color, List.foldl_cons, List.foldl_nil, hp1, hp2, hlk,
      seqScore_gris_perla]
    norm_num

/-- Claim C1 (falsified): when the model yields zero candidate names and the
sender-address fallback fails, extract_customer_id returns a no-match result
whose failure_context is absent — it carries no Failure Context at all, in
particular none with email_lookup_attempted set. -/
theorem zero_names_no_failure_context :
    (extract_customer_id {} [] none none "").customer_id = none ∧
    (extract_customer_id {} [] none none "").failure_context = none :=
  ⟨by decide, by decide⟩

/-- Claim C1 as amended: with zero candidate names (and no hardcoded customer
short-circuit) and a failed sender-address fallback, extract_customer_id
returns the no-match result that carries an error message but no Failure
Context. -/
theorem zero_names_fallback_failed_result :
    ∀ (resp : LlmCustomerResponse) (customers : List (Int × String))
      (se : Option String) (hit : Option (Int × String)) (etext : String),
      (resp.customer_id = none ∨ resp.needs_fuzzy_match = true) →
      resp.customer_names = [] →
      tryEmailLookupFallback se hit = none →
      extract_customer_id resp customers se hit etext =
        { customer_id := none, customer_name := none, potential_names := [],
          error := some "No customer names found in email and email lookup fallback failed",
          failure_context := none } := by
  intro resp customers se hit etext hguard hnames hfb
  have hg : (resp.customer_id.isSome && !resp.needs_fuzzy_match) = false := by
    rcases hguard with h | h
    · rw [h]
      rfl
    · rw [h]
      simp
  rw [extract_customer_id, if_neg (by rw [hg]; exact Bool.false_ne_true),
    if_pos hnames, hfb]

/-- Claim C1 witness: the empty model response, empty registry, no sender
address. -/
theorem zero_names_fallback_failed_result_witness :
    extract_customer_id {} [] none none "" =
      { customer_id := none, customer_name := none, potential_names := [],
        error := some "No customer names found in email and email lookup fallback failed",
        failure_context := none } :=
  zero_names_fallback_failed_result {} [] none none "" (Or.inl rfl) rfl rfl
